import Mathlib

/-!
Verification of the EPIJudge generic test handler
(`epi_judge_cpp/test_framework/generic_test_handler.h`).

The C++ code is a template class `GenericTestHandler<Function, Comparator>`.
We embed it shallowly: the compile-time type information of `Function` and
`Comparator` becomes runtime data (`Func`, `Comparator`), the supported value
universe becomes an inductive `Value` with type tags `Ty`, and the
`static_assert` of the class body becomes a proof field of the structure, so
that — exactly as in C++ — a handler violating the assertion cannot be built.

Collaborator code that the header uses but that is not part of this snapshot
(`MatchFunctionSignature`, `ParseSerializedArgs`, `SerializationTraits::Parse`,
`TestTimer` / `InvokeWithTimer`, `TestOutput`, `DefaultComparator`, and the
driver loop that calls `RunTest` per row) is modelled from the spec, as marked
on each definition.

Time is modelled by an explicit clock: `t0` is the clock when a row starts,
`pd` is the duration spent deserializing (arguments and expected value), and
`Func.time args` is the duration of the invocation itself.  Exceptions are
modelled by `Except Err`; C++ undefined behavior (reading `test_args.back()`
of an empty row) is modelled by an outer `Option` being `none`.
-/

/-- Type tags of the (modelled fragment of the) supported value universe.
`SerializationTraits<T>::serialization_type` is the identity on these
primitive types, so tags double as serialization types. -/
inductive Ty where
  | tInt
  | tBool
  | tString
  deriving DecidableEq

/-- The header string naming each type, as it appears in a test-data header
row. -/
def Ty.tag : Ty → String
  | .tInt => "int"
  | .tBool => "bool"
  | .tString => "string"

/-- Runtime values of the modelled universe. -/
inductive Value where
  | vInt (n : Int)
  | vBool (b : Bool)
  | vStr (s : String)
  deriving DecidableEq

/-- Errors of the harness.  `deserialization` models the RuntimeException
thrown when a field cannot be parsed (or the field count is wrong),
`testFailure` models TestFailureException thrown by the tested function, and
`other` models any other exception escaping the tested function. -/
inductive Err where
  | deserialization (msg : String)
  | testFailure (msg : String)
  | other (msg : String)
  deriving DecidableEq

/-- Whether an error is the designated recoverable-failure signal
(TestFailureException). -/
def Err.isTestFailure : Err → Bool
  | .testFailure _ => true
  | _ => false

deriving instance DecidableEq for Except

/-- The numeric value of a decimal digit character. -/
def digitVal (c : Char) : Option Nat :=
  if c = '0' then some 0
  else if c = '1' then some 1
  else if c = '2' then some 2
  else if c = '3' then some 3
  else if c = '4' then some 4
  else if c = '5' then some 5
  else if c = '6' then some 6
  else if c = '7' then some 7
  else if c = '8' then some 8
  else if c = '9' then some 9
  else none

/-- Accumulates a decimal number over a list of digit characters, failing on
the first non-digit. -/
def digitsAux : List Char → Nat → Option Nat
  | [], acc => some acc
  | c :: cs, acc =>
      match digitVal c with
      | none => none
      | some d => digitsAux cs (10 * acc + d)

/-- Modelled from the spec: the integer codec — a decimal integer with an
optional leading minus sign; anything else fails to parse. -/
def strToInt (s : String) : Option Int :=
  match s.data with
  | [] => none
  | c :: cs =>
      if c = '-' then
        match cs with
        | [] => none
        | _ :: _ => (digitsAux cs 0).map (fun n => -(n : Int))
      else (digitsAux (c :: cs) 0).map (fun n => (n : Int))

/-- Modelled from the spec: the per-type codec boundary
(`SerializationTraits<T>::Parse`, test_utils_serialization_traits.h, not in
this snapshot).  Each supported type parses a string field into a typed value
or fails with a deserialization error (here: `none`). -/
def parseValue : Ty → String → Option Value
  | .tInt, s => (strToInt s).map Value.vInt
  | .tBool, s =>
      if s = "true" then some (Value.vBool true)
      else if s = "false" then some (Value.vBool false)
      else none
  | .tString, s => some (Value.vStr s)

/-- The function under test: its statically declared parameter types and
return type (`none` models a `void` return), its behavior (which may raise),
and the duration of an invocation under the explicit clock model. -/
structure Func where
  argTys : List Ty
  ret : Option Ty
  run : List Value → Except Err Value
  time : List Value → Nat

/-- The comparator template argument: either `DefaultComparator` or a
user-supplied binary predicate whose first (expected) parameter type is
`arg1Ty` (`BiPredicateTraits<Comparator>::arg1_t`). -/
inductive Comparator where
  | default
  | custom (arg1Ty : Ty) (pred : Value → Value → Bool)

/-- Embeds `expected_value_t` (generic_test_handler.h lines 40-43): the
serialization type of the function's return type under the default
comparator, and of the comparator's first argument type otherwise.
`none` models `void`. -/
def expectedValueTy : Comparator → Option Ty → Option Ty
  | .default, ret => ret
  | .custom a _, _ => some a

/-- Embeds the `static_assert` of the class body (lines 45-49): the expected
type and the return type are either both void or both non-void. -/
def staticAssertOk (c : Comparator) (ret : Option Ty) : Bool :=
  (expectedValueTy c ret).isNone == ret.isNone

/-- Modelled from the spec: `TestTimer` (test_utils.h, not in this snapshot),
recording the clock at start and stop of the timed window. -/
structure TestTimer where
  start : Nat
  stop : Nat
  deriving DecidableEq

/-- The duration measured by a timer. -/
def TestTimer.elapsed (t : TestTimer) : Int := (t.stop : Int) - (t.start : Int)

/-- Modelled from the spec: `TestOutput` (test_output.h, not in this
snapshot), as constructed at generic_test_handler.h lines 150-151 and 166:
comparison result, timer, and the decoded expected and actual values (absent
on the void path). -/
structure TestOutput where
  passed : Bool
  timer : TestTimer
  expected : Option Value := none
  actual : Option Value := none
  deriving DecidableEq

/-- Modelled from the spec: `DefaultComparator` is structural equality;
a custom comparator applies its predicate to (expected, actual). -/
def compApply : Comparator → Value → Value → Bool
  | .default, e, a => e == a
  | .custom _ p, e, a => p e a

/-- The handler class.  The `static_assert` of the C++ class body is a field,
so a handler violating it cannot be built, mirroring the compile-time
rejection. -/
structure GenericTestHandler where
  func : Func
  comp : Comparator
  ok : staticAssertOk comp func.ret = true

/-- Constructing a handler: succeeds exactly when the `static_assert` holds
(in C++, instantiating the template with a violating pair does not compile). -/
def GenericTestHandler.mkHandler (f : Func) (c : Comparator) :
    Option GenericTestHandler :=
  if h : staticAssertOk c f.ret = true then some ⟨f, c, h⟩ else none

/-- Embeds `ExpectedIsVoid` (lines 101-103): whether `expected_tag` is
`ExpectedIsVoidTag`, i.e. whether `expected_value_t` is void. -/
def GenericTestHandler.ExpectedIsVoid (h : GenericTestHandler) : Bool :=
  (expectedValueTy h.comp h.func.ret).isNone

/-- Modelled from the spec: `MatchFunctionSignature` (declared in
test_utils_serialization_traits.h, not in this snapshot).  Spec 4.1:
validation fails when the header length differs from the parameter count plus
one for a non-void expected type, or when any positional tag differs from the
statically known type at that position; i.e. the header must equal the
parameter tags followed by the expected-value tag.  The instantiation with
`expected_value_t` (not the return type) is taken from the source, line 78. -/
def MatchFunctionSignature (expected : Option Ty) (argTys : List Ty)
    (header : List String) : Bool :=
  header == argTys.map Ty.tag ++
    (match expected with
     | none => []
     | some t => [t.tag])

/-- Embeds `ParseSignature` (lines 74-80): matches the test-data header
against `expected_value_t` and the argument tuple type.  `true` models
success; `false` models the thrown RuntimeException. -/
def GenericTestHandler.ParseSignature (h : GenericTestHandler)
    (arg_types : List String) : Bool :=
  MatchFunctionSignature (expectedValueTy h.comp h.func.ret) h.func.argTys
    arg_types

/-- Modelled from the spec: `ParseSerializedArgs` (test_utils_meta.h, not in
this snapshot).  Spec 4.2: decode each field positionally at its declared
type; fail with a deserialization error when a field cannot be parsed or when
the field count does not match the parameter count. -/
def ParseSerializedArgs : List Ty → List String → Except Err (List Value)
  | [], [] => Except.ok []
  | t :: ts, s :: ss =>
      match parseValue t s with
      | none => Except.error (Err.deserialization s)
      | some v => (ParseSerializedArgs ts ss).map (fun vs => v :: vs)
  | [], _ :: _ => Except.error (Err.deserialization "too many fields")
  | _ :: _, [] => Except.error (Err.deserialization "too few fields")

/-- Modelled from the spec: `FunctionalTraits::InvokeWithTimer`
(test_utils_meta.h, not in this snapshot).  Spec 4.3: the timer starts
immediately before the call and stops immediately after it; `now` is the
clock when the invocation begins and the call lasts `f.time args` ticks.  An
exception raised by the function propagates unchanged. -/
def InvokeWithTimer (f : Func) (now : Nat) (args : List Value) :
    Except Err (Value × TestTimer) :=
  (f.run args).map (fun v => (v, ⟨now, now + f.time args⟩))

/-- Embeds the `ExpectedIsValueTag` overload of `ParseExpectedAndInvokeImpl`
(lines 138-152): parse the expected value at type `t` (before the timer is
created), invoke with the timer, then apply the comparator to
(expected, result) and build the output carrying both values.  `t0 + pd` is
the clock when deserialization is done and the invocation begins. -/
def GenericTestHandler.ParseExpectedAndInvokeValue (h : GenericTestHandler)
    (t0 pd : Nat) (t : Ty) (serialized_expected : String)
    (args : List Value) : Except Err TestOutput :=
  match parseValue t serialized_expected with
  | none => Except.error (Err.deserialization serialized_expected)
  | some expected =>
      (InvokeWithTimer h.func (t0 + pd) args).map (fun r =>
        { passed := compApply h.comp expected r.1
          timer := r.2
          expected := some expected
          actual := some r.1 })

/-- Embeds the `ExpectedIsVoidTag` overload of `ParseExpectedAndInvokeImpl`
(lines 157-167): no expected value is parsed, the function is invoked with
the timer, and the output reports `passed = true` with no expected or actual
value. -/
def GenericTestHandler.ParseExpectedAndInvokeVoid (h : GenericTestHandler)
    (t0 pd : Nat) (args : List Value) : Except Err TestOutput :=
  (InvokeWithTimer h.func (t0 + pd) args).map (fun r =>
    { passed := true
      timer := r.2 })

/-- Embeds `ParseExpectedAndInvoke` (lines 127-132): tag dispatching on
`expected_tag`, i.e. on whether `expected_value_t` is void. -/
def GenericTestHandler.ParseExpectedAndInvoke (h : GenericTestHandler)
    (t0 pd : Nat) (serialized_expected : String) (args : List Value) :
    Except Err TestOutput :=
  match expectedValueTy h.comp h.func.ret with
  | some t => h.ParseExpectedAndInvokeValue t0 pd t serialized_expected args
  | none => h.ParseExpectedAndInvokeVoid t0 pd args

/-- Embeds `RunTest` (lines 92-99).  The argument fields are the range from
`cbegin` to `cend - (ExpectedIsVoid() ? 0 : 1)`, and the serialized expected
value is `test_args.back()`.  On an empty row, `cend - 1` (non-void case) and
`test_args.back()` (both cases) are undefined behavior on a `std::vector`,
modelled as the outer `none`; in the void case `ParseSerializedArgs` runs
first, so its exception (if any) wins over the undefined read. -/
def GenericTestHandler.RunTest (h : GenericTestHandler) (t0 pd : Nat)
    (test_args : List String) : Option (Except Err TestOutput) :=
  if h.ExpectedIsVoid then
    match ParseSerializedArgs h.func.argTys test_args with
    | Except.error e => some (Except.error e)
    | Except.ok args =>
        match test_args.getLast? with
        | none => none
        | some last => some (h.ParseExpectedAndInvoke t0 pd last args)
  else
    match test_args.getLast? with
    | none => none
    | some last =>
        match ParseSerializedArgs h.func.argTys test_args.dropLast with
        | Except.error e => some (Except.error e)
        | Except.ok args => some (h.ParseExpectedAndInvoke t0 pd last args)

/-- The per-row output the driver records when the tested function throws
TestFailureException: the row is marked failed.  The timer window is empty
(no completed timed invocation is reported). -/
def failedOutput (t0 pd : Nat) : TestOutput :=
  { passed := false
    timer := ⟨t0 + pd, t0 + pd⟩ }

/-- Modelled from the spec: the driver loop that feeds rows to `RunTest`
(generic_test.h, not in this snapshot), following the source doc comment
(lines 26-33) and spec section 7: a RuntimeException from `RunTest`
terminates testing; a TestFailureException thrown by the tested method marks
the current test failed and execution goes on; any other exception from the
tested method terminates the program.  The result collects one output per
processed row plus the fatal error, if any; undefined behavior in any row
makes the whole run undefined. -/
def RunTests (h : GenericTestHandler) (t0 pd : Nat) :
    List (List String) → Option (List TestOutput × Option Err)
  | [] => some ([], none)
  | row :: rest =>
      match h.RunTest t0 pd row with
      | none => none
      | some (Except.error (Err.testFailure _)) =>
          (RunTests h t0 pd rest).map
            (fun p => (failedOutput t0 pd :: p.1, p.2))
      | some (Except.error e) => some ([], some e)
      | some (Except.ok out) =>
          (RunTests h t0 pd rest).map (fun p => (out :: p.1, p.2))

/-- Whether an error is a deserialization error. -/
def Err.isDeserialization : Err → Bool
  | .deserialization _ => true
  | _ => false

/-- Embeds `BiPredicateTraits<Comparator>::arg1_t`: the declared type of the
comparator's first (expected) parameter; `none` for the default comparator,
whose expected type is inherited from the function. -/
def Comparator.arg1 : Comparator → Option Ty
  | .default => none
  | .custom a _ => some a

/-- The header predicate exactly as claim C1 reads it, stated from the
spec's words for comparison against `ParseSignature`: the header must list
the tags of the function under test's declared parameter types followed by
the tag of its declared return type. -/
def headerMatchesFunction (f : Func) (header : List String) : Bool :=
  header == f.argTys.map Ty.tag ++
    (match f.ret with
     | none => []
     | some t => [t.tag])

/-- The unique header accepted by `ParseSignature`: the parameter tags
followed by the tag of `expected_value_t` (when non-void). -/
def signatureHeader (h : GenericTestHandler) : List String :=
  h.func.argTys.map Ty.tag ++
    (match expectedValueTy h.comp h.func.ret with
     | none => []
     | some t => [t.tag])

/-- A function under test adding two ints: `(int, int) -> int`. -/
def fSum : Func :=
  { argTys := [Ty.tInt, Ty.tInt]
    ret := some Ty.tInt
    run := fun vs =>
      match vs with
      | [Value.vInt a, Value.vInt b] => Except.ok (Value.vInt (a + b))
      | _ => Except.error (Err.other "bad arguments")
    time := fun _ => 3 }

/-- The sum function under the default comparator. -/
def hSum : GenericTestHandler := ⟨fSum, Comparator.default, rfl⟩

/-- A nullary function under test returning an int. -/
def fConstInt : Func :=
  { argTys := []
    ret := some Ty.tInt
    run := fun _ => Except.ok (Value.vInt 0)
    time := fun _ => 1 }

/-- A user-supplied comparator whose first (expected) parameter type is
string — legitimately different from the return type of the function it is
used with (spec 4.4 allows this asymmetry). -/
def strComparator : Comparator := Comparator.custom Ty.tString (fun _ _ => true)

/-- The nullary int-returning function paired with the string-expecting
comparator: a handler the static assert accepts. -/
def hCustom : GenericTestHandler := ⟨fConstInt, strComparator, rfl⟩

/-- A void function under test of one int parameter. -/
def fVoidOne : Func :=
  { argTys := [Ty.tInt]
    ret := none
    run := fun _ => Except.ok (Value.vInt 0)
    time := fun _ => 2 }

/-- The unary void function under the default comparator. -/
def hVoidOne : GenericTestHandler := ⟨fVoidOne, Comparator.default, rfl⟩

/-- A void function under test of zero parameters: its valid test rows have
no fields at all. -/
def fVoidNullary : Func :=
  { argTys := []
    ret := none
    run := fun _ => Except.ok (Value.vInt 0)
    time := fun _ => 1 }

/-- The nullary void function under the default comparator. -/
def hVoidNullary : GenericTestHandler := ⟨fVoidNullary, Comparator.default, rfl⟩

/-- A function under test that always raises TestFailureException. -/
def fFail : Func :=
  { argTys := [Ty.tInt]
    ret := some Ty.tInt
    run := fun _ => Except.error (Err.testFailure "expected failure")
    time := fun _ => 1 }

/-- The always-failing function under the default comparator. -/
def hFail : GenericTestHandler := ⟨fFail, Comparator.default, rfl⟩

/-- The output `RunTest` produces for `hSum` on the row with fields 2, 3
and expected value 5, at clock 0 with no modelled deserialization delay. -/
def outSum5 : TestOutput :=
  { passed := true
    timer := ⟨0, 3⟩
    expected := some (Value.vInt 5)
    actual := some (Value.vInt 5) }

/-- The static assert, as a proposition: for every handler that exists,
`expected_value_t` is void exactly when the return type is void. -/
lemma GenericTestHandler.expected_none_iff (h : GenericTestHandler) :
    expectedValueTy h.comp h.func.ret = none ↔ h.func.ret = none := by
  have hok := h.ok
  simp only [staticAssertOk, beq_iff_eq] at hok
  constructor
  · intro he
    rw [← Option.isNone_iff_eq_none, ← hok, Option.isNone_iff_eq_none]
    exact he
  · intro hr
    rw [← Option.isNone_iff_eq_none, hok, Option.isNone_iff_eq_none]
    exact hr

/-- The predicate `ExpectedIsVoid` agrees with voidness of the return type
(by the static assert). -/
lemma GenericTestHandler.expectedIsVoid_eq_ret (h : GenericTestHandler) :
    h.ExpectedIsVoid = h.func.ret.isNone := by
  have hok := h.ok
  simp only [staticAssertOk, beq_iff_eq] at hok
  exact hok

/-- Argument deserialization fails only with a deserialization error. -/
lemma ParseSerializedArgs_error_shape :
    ∀ (tys : List Ty) (ss : List String) (e : Err),
      ParseSerializedArgs tys ss = Except.error e →
      e.isDeserialization = true := by
  intro tys
  induction tys with
  | nil =>
    intro ss e hp
    cases ss with
    | nil => simp [ParseSerializedArgs] at hp
    | cons s ss =>
      simp [ParseSerializedArgs] at hp
      simp [← hp, Err.isDeserialization]
  | cons t ts ih =>
    intro ss e hp
    cases ss with
    | nil =>
      simp [ParseSerializedArgs] at hp
      simp [← hp, Err.isDeserialization]
    | cons s ss =>
      simp only [ParseSerializedArgs] at hp
      cases hv : parseValue t s with
      | none =>
        rw [hv] at hp
        simp at hp
        simp [← hp, Err.isDeserialization]
      | some v =>
        rw [hv] at hp
        cases hrest : ParseSerializedArgs ts ss with
        | error e2 =>
          rw [hrest] at hp
          simp [Except.map] at hp
          exact hp ▸ ih ss e2 hrest
        | ok vs =>
          rw [hrest] at hp
          simp [Except.map] at hp

/-- Inversion for the tag-dispatched `ParseExpectedAndInvoke` returning
normally: either the void overload ran (no expected or actual value,
`passed = true`), or the value overload ran (expected parsed before the
timed invocation, comparator applied to expected and actual). -/
lemma ParseExpectedAndInvoke_ok_inversion (h : GenericTestHandler)
    (t0 pd : Nat) (s : String) (args : List Value) (out : TestOutput)
    (hp : h.ParseExpectedAndInvoke t0 pd s args = Except.ok out) :
    (expectedValueTy h.comp h.func.ret = none ∧
      ∃ v, h.func.run args = Except.ok v ∧
        out = { passed := true
                timer := ⟨t0 + pd, t0 + pd + h.func.time args⟩ }) ∨
    (∃ t e v, expectedValueTy h.comp h.func.ret = some t ∧
      parseValue t s = some e ∧ h.func.run args = Except.ok v ∧
      out = { passed := compApply h.comp e v
              timer := ⟨t0 + pd, t0 + pd + h.func.time args⟩
              expected := some e
              actual := some v }) := by
  unfold GenericTestHandler.ParseExpectedAndInvoke at hp
  split at hp
  · next t hty =>
      right
      unfold GenericTestHandler.ParseExpectedAndInvokeValue at hp
      split at hp
      · exact absurd hp (by simp)
      · next e hpe =>
          unfold InvokeWithTimer at hp
          cases hr : h.func.run args with
          | error e2 => rw [hr] at hp; simp [Except.map] at hp
          | ok v =>
            rw [hr] at hp
            simp [Except.map] at hp
            exact ⟨t, e, v, hty, hpe, rfl, hp.symm⟩
  · next hty =>
      left
      refine ⟨hty, ?_⟩
      unfold GenericTestHandler.ParseExpectedAndInvokeVoid InvokeWithTimer at hp
      cases hr : h.func.run args with
      | error e => rw [hr] at hp; simp [Except.map] at hp
      | ok v =>
        rw [hr] at hp
        simp [Except.map] at hp
        exact ⟨v, rfl, hp.symm⟩

/-- Inversion for `RunTest` returning normally: the row was non-empty, its
argument prefix (all fields when the return type is void, all but the last
otherwise) deserialized, and the tag-dispatched implementation returned the
output. -/
lemma RunTest_ok_inversion (h : GenericTestHandler) (t0 pd : Nat)
    (row : List String) (out : TestOutput)
    (hr : h.RunTest t0 pd row = some (Except.ok out)) :
    ∃ last args, row.getLast? = some last ∧
      ParseSerializedArgs h.func.argTys
        (row.take (row.length - (if h.func.ret = none then 0 else 1))) =
        Except.ok args ∧
      h.ParseExpectedAndInvoke t0 pd last args = Except.ok out := by
  unfold GenericTestHandler.RunTest at hr
  by_cases hv : h.ExpectedIsVoid = true
  · have hret : h.func.ret = none := by
      have := h.expectedIsVoid_eq_ret
      rw [hv] at this
      exact Option.isNone_iff_eq_none.mp this.symm
    rw [if_pos hv] at hr
    cases hp : ParseSerializedArgs h.func.argTys row with
    | error e => rw [hp] at hr; simp at hr
    | ok args =>
      rw [hp] at hr
      cases hl : row.getLast? with
      | none => rw [hl] at hr; simp at hr
      | some last =>
        rw [hl] at hr
        simp at hr
        refine ⟨last, args, rfl, ?_, hr⟩
        simpa [hret, List.take_length] using hp
  · have hret : ¬ h.func.ret = none := by
      intro hc
      apply hv
      rw [h.expectedIsVoid_eq_ret, hc]
      rfl
    rw [if_neg hv] at hr
    cases hl : row.getLast? with
    | none => rw [hl] at hr; simp at hr
    | some last =>
      rw [hl] at hr
      cases hp : ParseSerializedArgs h.func.argTys row.dropLast with
      | error e => rw [hp] at hr; simp at hr
      | ok args =>
        rw [hp] at hr
        simp at hr
        refine ⟨last, args, rfl, ?_, hr⟩
        simpa [hret, ← List.dropLast_eq_take] using hp

/-- The predicate `ExpectedIsVoid` holds exactly for void-returning
functions. -/
lemma GenericTestHandler.expectedIsVoid_true_iff (h : GenericTestHandler) :
    h.ExpectedIsVoid = true ↔ h.func.ret = none := by
  rw [h.expectedIsVoid_eq_ret, Option.isNone_iff_eq_none]

/-- The static assert holds exactly when expected type and return type are
simultaneously void. -/
lemma staticAssertOk_iff (c : Comparator) (ret : Option Ty) :
    staticAssertOk c ret = true ↔ (expectedValueTy c ret = none ↔ ret = none) := by
  rcases ret with _ | t
  · cases hx : expectedValueTy c none <;> simp [staticAssertOk, hx]
  · cases hx : expectedValueTy c (some t) <;> simp [staticAssertOk, hx]

/-- C1 counterexample: a constructible handler — nullary function returning
int, user comparator whose expected argument type is string — on which the
claim fails: the header naming the function's declared return type is
rejected by `ParseSignature`, while the header naming the comparator's
expected type is accepted. -/
theorem C1_counterexample_parseSignature :
    headerMatchesFunction fConstInt ["int"] = true ∧
    GenericTestHandler.mkHandler fConstInt strComparator = some hCustom ∧
    hCustom.ParseSignature ["int"] = false ∧
    hCustom.ParseSignature ["string"] = true :=
  ⟨by decide, rfl, by decide, by decide⟩

/-- C1 (amended): `ParseSignature` succeeds iff the header lists exactly the
tags of the declared parameter types followed by the tag of the
expected-value type (the return type under the default comparator, the
comparator's first-argument type under a user comparator); consequently any
single-tag mutation or length change makes it fail. -/
theorem C1_parseSignature_iff :
    ∀ (h : GenericTestHandler) (header : List String),
      h.ParseSignature header = true ↔ header = signatureHeader h := by
  intro h header
  simp [GenericTestHandler.ParseSignature, MatchFunctionSignature,
    signatureHeader]

/-- C3: for every handler that can be constructed the expected-value type is
void iff the function's return type is void, and construction itself
succeeds exactly when that biconditional holds — the check lives in the
handler type (static assert), not in any per-row code. -/
theorem C3_expected_void_iff_ret_void :
    (∀ h : GenericTestHandler,
      (expectedValueTy h.comp h.func.ret = none ↔ h.func.ret = none)) ∧
    (∀ (f : Func) (c : Comparator),
      (GenericTestHandler.mkHandler f c).isSome = true ↔
        (expectedValueTy c f.ret = none ↔ f.ret = none)) := by
  constructor
  · exact fun h => h.expected_none_iff
  · intro f c
    rw [← staticAssertOk_iff]
    by_cases hok : staticAssertOk c f.ret = true <;>
      simp [GenericTestHandler.mkHandler, hok]

/-- C10: for the nullary void-returning function the empty row is the valid
row shape — it matches the signature header and its zero argument fields
deserialize — yet `RunTest` on it has no defined result (it reads
`test_args.back()` of an empty vector), rather than succeeding or raising a
modeled error. -/
theorem C10_empty_row_undefined :
    ∀ t0 pd : Nat,
      hVoidNullary.RunTest t0 pd [] = none ∧
      ParseSerializedArgs hVoidNullary.func.argTys [] = Except.ok [] ∧
      hVoidNullary.ParseSignature [] = true ∧
      hVoidNullary.func.ret = none ∧
      hVoidNullary.func.argTys = [] := by
  intro t0 pd
  exact ⟨rfl, rfl, rfl, rfl, rfl⟩

/-- C2: for any normally returning row, the expected value carried in the
output is the trailing field parsed at `expected_value_t` — which is the
comparator's first-argument type when a user comparator is supplied, and the
function's return type under the default comparator. -/
theorem C2_expected_parse_type (h : GenericTestHandler) (t0 pd : Nat)
    (s : String) (args : List Value) (out : TestOutput)
    (hp : h.ParseExpectedAndInvoke t0 pd s args = Except.ok out) :
    out.expected =
      (expectedValueTy h.comp h.func.ret).bind (fun t => parseValue t s) ∧
    (h.comp = Comparator.default →
      expectedValueTy h.comp h.func.ret = h.func.ret) ∧
    (h.comp ≠ Comparator.default →
      expectedValueTy h.comp h.func.ret = h.comp.arg1) := by
  refine ⟨?_, ?_, ?_⟩
  · rcases ParseExpectedAndInvoke_ok_inversion h t0 pd s args out hp with
      ⟨hty, v, hrun, hout⟩ | ⟨t, e, v, hty, hpe, hrun, hout⟩
    · subst hout
      rw [hty]
      rfl
    · subst hout
      rw [hty]
      simpa using hpe.symm
  · intro hd
    rw [hd]
    rfl
  · intro hnd
    rcases hc : h.comp with _ | ⟨a, p⟩
    · exact absurd hc hnd
    · rfl

/-- C2 witness: the sum handler at row fields 2, 3 with expected field 5. -/
theorem C2_expected_parse_type_witness :
    outSum5.expected =
      (expectedValueTy hSum.comp hSum.func.ret).bind
        (fun t => parseValue t "5") ∧
    (hSum.comp = Comparator.default →
      expectedValueTy hSum.comp hSum.func.ret = hSum.func.ret) ∧
    (hSum.comp ≠ Comparator.default →
      expectedValueTy hSum.comp hSum.func.ret = hSum.comp.arg1) :=
  C2_expected_parse_type hSum 0 0 "5" [Value.vInt 2, Value.vInt 3] outSum5
    (by decide)

/-- C5: a normally returning row of a void-returning function carries neither
an expected nor an actual value, and one of a non-void function always
carries both. -/
theorem C5_output_population (h : GenericTestHandler) (t0 pd : Nat)
    (row : List String) (out : TestOutput)
    (hr : h.RunTest t0 pd row = some (Except.ok out)) :
    (h.func.ret = none → out.expected = none ∧ out.actual = none) ∧
    (h.func.ret ≠ none →
      out.expected.isSome = true ∧ out.actual.isSome = true) := by
  obtain ⟨last, args, _, _, hpei⟩ := RunTest_ok_inversion h t0 pd row out hr
  rcases ParseExpectedAndInvoke_ok_inversion h t0 pd last args out hpei with
    ⟨hty, v, hrun, hout⟩ | ⟨t, e, v, hty, hpe, hrun, hout⟩
  · subst hout
    refine ⟨fun _ => ⟨rfl, rfl⟩, fun hret => ?_⟩
    exact absurd (h.expected_none_iff.mp hty) hret
  · subst hout
    refine ⟨fun hret => ?_, fun _ => ⟨rfl, rfl⟩⟩
    exact absurd (h.expected_none_iff.mpr hret) (by simp [hty])

/-- C5 witness: the sum handler on the row with fields 2, 3 and expected 5. -/
theorem C5_output_population_witness :
    (hSum.func.ret = none → outSum5.expected = none ∧ outSum5.actual = none) ∧
    (hSum.func.ret ≠ none →
      outSum5.expected.isSome = true ∧ outSum5.actual.isSome = true) :=
  C5_output_population hSum 0 0 ["2", "3", "5"] outSum5 (by decide)

/-- C6: the comparison verdict of a normally returning row is the comparator
applied to the decoded expected value (first argument) and the function's
result (second argument) when both are present, and `true` on the void path,
where neither is present; in particular a void row that returns always
passes. -/
theorem C6_passed_semantics (h : GenericTestHandler) (t0 pd : Nat)
    (row : List String) (out : TestOutput)
    (hr : h.RunTest t0 pd row = some (Except.ok out)) :
    (h.func.ret = none → out.passed = true) ∧
    out.passed =
      (match out.expected, out.actual with
       | some e, some a => compApply h.comp e a
       | _, _ => true) := by
  obtain ⟨last, args, _, _, hpei⟩ := RunTest_ok_inversion h t0 pd row out hr
  rcases ParseExpectedAndInvoke_ok_inversion h t0 pd last args out hpei with
    ⟨hty, v, hrun, hout⟩ | ⟨t, e, v, hty, hpe, hrun, hout⟩
  · subst hout
    exact ⟨fun _ => rfl, rfl⟩
  · subst hout
    refine ⟨fun hret => ?_, rfl⟩
    exact absurd (h.expected_none_iff.mpr hret) (by simp [hty])

/-- The output `RunTest` produces for `hVoidOne` on the single-field row 7,
at clock 0 with no modelled deserialization delay. -/
def outVoid7 : TestOutput :=
  { passed := true
    timer := ⟨0, 2⟩ }

/-- C6 witness: the unary void handler on the row with single field 7. -/
theorem C6_passed_semantics_witness :
    (hVoidOne.func.ret = none → outVoid7.passed = true) ∧
    outVoid7.passed =
      (match outVoid7.expected, outVoid7.actual with
       | some e, some a => compApply hVoidOne.comp e a
       | _, _ => true) :=
  C6_passed_semantics hVoidOne 0 0 ["7"] outVoid7 (by decide)

/-- C9: the timer of a normally returning row opens at the clock reached
after all deserialization (`t0 + pd`) and closes after exactly the
invocation's duration, so the measured window is the invocation only —
parsing happens before the window and the comparator is applied after it —
and the elapsed time is never negative. -/
theorem C9_timer_covers_invocation (h : GenericTestHandler) (t0 pd : Nat)
    (row : List String) (args : List Value) (out : TestOutput)
    (hargs : ParseSerializedArgs h.func.argTys
        (row.take (row.length - (if h.func.ret = none then 0 else 1))) =
        Except.ok args)
    (hr : h.RunTest t0 pd row = some (Except.ok out)) :
    out.timer.start = t0 + pd ∧
    out.timer.stop = t0 + pd + h.func.time args ∧
    out.timer.elapsed = (h.func.time args : Int) ∧
    0 ≤ out.timer.elapsed := by
  obtain ⟨last, args2, _, hp, hpei⟩ := RunTest_ok_inversion h t0 pd row out hr
  have hargs2 : args2 = args := by
    have := hargs.symm.trans hp
    exact (Except.ok.injEq _ _).mp this.symm
  subst hargs2
  have htimer : out.timer = ⟨t0 + pd, t0 + pd + h.func.time args2⟩ := by
    rcases ParseExpectedAndInvoke_ok_inversion h t0 pd last args2 out hpei with
      ⟨_, v, _, hout⟩ | ⟨t, e, v, _, _, _, hout⟩ <;> subst hout <;> rfl
  rw [htimer]
  refine ⟨rfl, rfl, ?_, ?_⟩ <;> simp [TestTimer.elapsed]

/-- C9 witness: the sum handler on the row with fields 2, 3, expected 5. -/
theorem C9_timer_covers_invocation_witness :
    outSum5.timer.start = 0 + 0 ∧
    outSum5.timer.stop = 0 + 0 + hSum.func.time [Value.vInt 2, Value.vInt 3] ∧
    outSum5.timer.elapsed =
      (hSum.func.time [Value.vInt 2, Value.vInt 3] : Int) ∧
    0 ≤ outSum5.timer.elapsed :=
  C9_timer_covers_invocation hSum 0 0 ["2", "3", "5"]
    [Value.vInt 2, Value.vInt 3] outSum5 (by decide) (by decide)

/-- C4: on any non-empty row, `RunTest` deserializes as arguments exactly the
first `row.length - 1` fields when the return type is non-void and all
`row.length` fields when it is void, and hands the last field to the
expected-value/invocation stage. -/
theorem C4_runTest_split (h : GenericTestHandler) (t0 pd : Nat)
    (row : List String) (hne : row ≠ []) :
    h.RunTest t0 pd row =
      some ((ParseSerializedArgs h.func.argTys
          (row.take (row.length - (if h.func.ret = none then 0 else 1)))).bind
        (fun args =>
          h.ParseExpectedAndInvoke t0 pd (row.getLast?.getD "") args)) := by
  cases hl : row.getLast? with
  | none => exact absurd (List.getLast?_eq_none_iff.mp hl) hne
  | some last =>
    unfold GenericTestHandler.RunTest
    by_cases hv : h.ExpectedIsVoid = true
    · have hret : h.func.ret = none := h.expectedIsVoid_true_iff.mp hv
      have h0 : (if h.func.ret = none then 0 else 1) = 0 := by rw [if_pos hret]
      rw [h0, Nat.sub_zero, List.take_length, if_pos hv]
      cases hp : ParseSerializedArgs h.func.argTys row with
      | error e => rfl
      | ok args => rw [hl]; rfl
    · have hret : ¬ h.func.ret = none :=
        fun hc => hv (h.expectedIsVoid_true_iff.mpr hc)
      rw [if_neg hret, ← List.dropLast_eq_take, if_neg hv, hl]
      cases hp : ParseSerializedArgs h.func.argTys row.dropLast with
      | error e => rfl
      | ok args => rfl

/-- C4 witness: the sum handler on the row with fields 2, 3, expected 5. -/
theorem C4_runTest_split_witness :
    hSum.RunTest 0 0 ["2", "3", "5"] =
      some ((ParseSerializedArgs hSum.func.argTys
          ((["2", "3", "5"] : List String).take
            ((["2", "3", "5"] : List String).length -
              (if hSum.func.ret = none then 0 else 1)))).bind
        (fun args =>
          hSum.ParseExpectedAndInvoke 0 0
            ((["2", "3", "5"] : List String).getLast?.getD "") args)) :=
  C4_runTest_split hSum 0 0 ["2", "3", "5"] (by decide)

/-- A row whose argument fields fail to deserialize makes `RunTest` raise
that deserialization error, whatever the function under test is. -/
lemma RunTest_parse_error (h : GenericTestHandler) (t0 pd : Nat)
    (row : List String) (e : Err) (hne : row ≠ [])
    (hp : ParseSerializedArgs h.func.argTys
        (row.take (row.length - (if h.func.ret = none then 0 else 1))) =
        Except.error e) :
    h.RunTest t0 pd row = some (Except.error e) := by
  cases hl : row.getLast? with
  | none => exact absurd (List.getLast?_eq_none_iff.mp hl) hne
  | some last =>
    unfold GenericTestHandler.RunTest
    by_cases hv : h.ExpectedIsVoid = true
    · have hret : h.func.ret = none := h.expectedIsVoid_true_iff.mp hv
      have h0 : (if h.func.ret = none then 0 else 1) = 0 := by rw [if_pos hret]
      rw [h0, Nat.sub_zero, List.take_length] at hp
      rw [if_pos hv, hp]
    · have hret : ¬ h.func.ret = none :=
        fun hc => hv (h.expectedIsVoid_true_iff.mpr hc)
      rw [if_neg hret, ← List.dropLast_eq_take] at hp
      rw [if_neg hv, hl, hp]

/-- C7: when some argument field of a (non-empty) row fails to deserialize,
`RunTest` raises that error — necessarily a deserialization error — without
producing an output and without ever invoking the function under test
(replacing the function's behavior changes nothing), and the driver stops at
that row: no later row is processed. -/
theorem C7_decode_failure_aborts (h : GenericTestHandler) (t0 pd : Nat)
    (row : List String) (e : Err) (rest : List (List String))
    (run2 : List Value → Except Err Value) (time2 : List Value → Nat)
    (hne : row ≠ [])
    (hp : ParseSerializedArgs h.func.argTys
        (row.take (row.length - (if h.func.ret = none then 0 else 1))) =
        Except.error e) :
    h.RunTest t0 pd row = some (Except.error e) ∧
    e.isDeserialization = true ∧
    (GenericTestHandler.mk
        { argTys := h.func.argTys, ret := h.func.ret
          run := run2, time := time2 }
        h.comp h.ok).RunTest t0 pd row = some (Except.error e) ∧
    RunTests h t0 pd (row :: rest) = some ([], some e) := by
  have h1 := RunTest_parse_error h t0 pd row e hne hp
  have h2 := ParseSerializedArgs_error_shape _ _ _ hp
  refine ⟨h1, h2, ?_, ?_⟩
  · exact RunTest_parse_error _ t0 pd row e hne hp
  · rcases e with m | m | m
    · simp [RunTests, h1]
    · simp [Err.isDeserialization] at h2
    · simp [Err.isDeserialization] at h2

/-- C7 witness: the sum handler on a row whose first argument field is not an
int; the later well-formed row is never processed. -/
theorem C7_decode_failure_aborts_witness :
    hSum.RunTest 0 0 ["abc", "3", "5"] =
      some (Except.error (Err.deserialization "abc")) ∧
    (Err.deserialization "abc").isDeserialization = true ∧
    (GenericTestHandler.mk
        { argTys := hSum.func.argTys, ret := hSum.func.ret
          run := fun _ => Except.ok (Value.vInt 7), time := fun _ => 9 }
        hSum.comp hSum.ok).RunTest 0 0 ["abc", "3", "5"] =
      some (Except.error (Err.deserialization "abc")) ∧
    RunTests hSum 0 0 (["abc", "3", "5"] :: [["2", "3", "5"]]) =
      some ([], some (Err.deserialization "abc")) :=
  C7_decode_failure_aborts hSum 0 0 ["abc", "3", "5"]
    (Err.deserialization "abc") [["2", "3", "5"]]
    (fun _ => Except.ok (Value.vInt 7)) (fun _ => 9) (by decide) (by decide)

/-- C8: `RunTest` catches nothing thrown by the function under test: once
the row's fields deserialize, any error the function raises surfaces
unchanged to the caller; at the driver, a TestFailureException marks the row
failed and the remaining rows are still processed, while any other error
stops the whole run at that row. -/
theorem C8_exception_propagation (h : GenericTestHandler) (t0 pd : Nat)
    (row : List String) (args : List Value) (ex : Err)
    (rest : List (List String)) (hne : row ≠ [])
    (hargs : ParseSerializedArgs h.func.argTys
        (row.take (row.length - (if h.func.ret = none then 0 else 1))) =
        Except.ok args)
    (hexp : (match expectedValueTy h.comp h.func.ret with
             | none => true
             | some t => (parseValue t (row.getLast?.getD "")).isSome) = true)
    (hrun : h.func.run args = Except.error ex) :
    h.RunTest t0 pd row = some (Except.error ex) ∧
    (ex.isTestFailure = true →
      RunTests h t0 pd (row :: rest) =
        (RunTests h t0 pd rest).map
          (fun p => (failedOutput t0 pd :: p.1, p.2))) ∧
    (ex.isTestFailure = false →
      RunTests h t0 pd (row :: rest) = some ([], some ex)) := by
  cases hl : row.getLast? with
  | none => exact absurd (List.getLast?_eq_none_iff.mp hl) hne
  | some last =>
  have h1 : h.RunTest t0 pd row = some (Except.error ex) := by
    unfold GenericTestHandler.RunTest
    by_cases hv : h.ExpectedIsVoid = true
    · have hret : h.func.ret = none := h.expectedIsVoid_true_iff.mp hv
      have hty : expectedValueTy h.comp h.func.ret = none :=
        h.expected_none_iff.mpr hret
      have h0 : (if h.func.ret = none then 0 else 1) = 0 := by rw [if_pos hret]
      rw [h0, Nat.sub_zero, List.take_length] at hargs
      rw [if_pos hv, hargs, hl]
      simp [GenericTestHandler.ParseExpectedAndInvoke, hty,
        GenericTestHandler.ParseExpectedAndInvokeVoid, InvokeWithTimer, hrun,
        Except.map]
    · have hret : ¬ h.func.ret = none :=
        fun hc => hv (h.expectedIsVoid_true_iff.mpr hc)
      obtain ⟨t, hty⟩ : ∃ t, expectedValueTy h.comp h.func.ret = some t := by
        cases hx : expectedValueTy h.comp h.func.ret with
        | none => exact absurd (h.expected_none_iff.mp hx) hret
        | some t => exact ⟨t, rfl⟩
      rw [hty, hl] at hexp
      simp only [Option.getD_some] at hexp
      obtain ⟨e, hpe⟩ := Option.isSome_iff_exists.mp hexp
      rw [if_neg hret, ← List.dropLast_eq_take] at hargs
      rw [if_neg hv, hl, hargs]
      simp [GenericTestHandler.ParseExpectedAndInvoke, hty,
        GenericTestHandler.ParseExpectedAndInvokeValue, hpe, InvokeWithTimer,
        hrun, Except.map]
  refine ⟨h1, ?_, ?_⟩
  · intro htf
    rcases ex with m | m | m
    · simp [Err.isTestFailure] at htf
    · simp [RunTests, h1]
    · simp [Err.isTestFailure] at htf
  · intro htf
    rcases ex with m | m | m
    · simp [RunTests, h1]
    · simp [Err.isTestFailure] at htf
    · simp [RunTests, h1]

/-- C8 witness: a handler whose function always throws TestFailureException;
the row is scored failed and an (empty) remainder of the suite is still
processed. -/
theorem C8_exception_propagation_witness :
    hFail.RunTest 0 0 ["2", "5"] =
      some (Except.error (Err.testFailure "expected failure")) ∧
    ((Err.testFailure "expected failure").isTestFailure = true →
      RunTests hFail 0 0 (["2", "5"] :: []) =
        (RunTests hFail 0 0 []).map
          (fun p => (failedOutput 0 0 :: p.1, p.2))) ∧
    ((Err.testFailure "expected failure").isTestFailure = false →
      RunTests hFail 0 0 (["2", "5"] :: []) =
        some ([], some (Err.testFailure "expected failure"))) :=
  C8_exception_propagation hFail 0 0 ["2", "5"] [Value.vInt 2]
    (Err.testFailure "expected failure") [] (by decide) (by decide)
    (by decide) (by decide)
